import Mathlib

/-!
Verification of the Taker configuration loader (`src/taker/config.rs`).

The loader resolves a configuration file path, bootstraps a default file when
none exists, parses it into a generic TOML-like document, and assembles a
`TakerConfig` value field by field with per-field fallback to hard-coded
defaults.

The collaborators from `crate::utill` (`parse_field`, `parse_toml`,
`write_default_config`, `get_config_dir`) are not part of the sources under
verification; they are modelled from the specification, as noted on each
definition. Everything else is translated directly from `src/taker/config.rs`.
-/

set_option autoImplicit false

/-- An untyped TOML scalar value, as stored in a parsed section: either an
integer or a non-numeric value (modelled by a string). -/
inductive TomlValue where
  | int (n : Int)
  | str (s : String)
deriving DecidableEq

/-- A parsed section: a mapping from key strings to untyped values, modelled
as an association list whose lookup takes the first binding. -/
abbrev TomlSection := List (String × TomlValue)

/-- A parsed document: a mapping from section names to sections. -/
abbrev TomlDoc := List (String × TomlSection)

/-- First-match lookup in an association list keyed by strings. -/
def lookupKV {α : Type} : List (String × α) → String → Option α
  | [], _ => none
  | (k', v) :: rest, k => if k' = k then some v else lookupKV rest k

/-- Taker configuration with refund, connection, and sleep settings
(`struct TakerConfig`).  The unsigned widths (u16/u32/u64) of the Rust
fields are enforced at conversion time via explicit bounds. -/
structure TakerConfig where
  refund_locktime : Nat
  refund_locktime_step : Nat
  first_connect_attempts : Nat
  first_connect_sleep_delay_sec : Nat
  first_connect_attempt_timeout_sec : Nat
  reconnect_attempts : Nat
  reconnect_short_sleep_delay : Nat
  reconnect_long_sleep_delay : Nat
  short_long_sleep_delay_transition : Nat
  reconnect_attempt_timeout_sec : Nat
deriving DecidableEq

/-- The hard-coded defaults (`impl Default for TakerConfig`). -/
def TakerConfig.default : TakerConfig where
  refund_locktime := 48
  refund_locktime_step := 48
  first_connect_attempts := 5
  first_connect_sleep_delay_sec := 1
  first_connect_attempt_timeout_sec := 20
  reconnect_attempts := 3200
  reconnect_short_sleep_delay := 10
  reconnect_long_sleep_delay := 60
  short_long_sleep_delay_transition := 60
  reconnect_attempt_timeout_sec := 300

/-- Exclusive upper bound of the `u16` range. -/
def u16Bound : Nat := 2 ^ 16

/-- Exclusive upper bound of the `u32` range. -/
def u32Bound : Nat := 2 ^ 32

/-- Exclusive upper bound of the `u64` range. -/
def u64Bound : Nat := 2 ^ 64

/-- Modelled from the spec: the typed conversion step of the Field Resolver
(§4.1).  An untyped value converts to the unsigned type of exclusive bound
`bound` exactly when it is an integer inside that range; a non-numeric value
or an out-of-range integer (overflow, negative) fails to convert. -/
def convertVal (bound : Nat) : TomlValue → Option Nat
  | TomlValue.int n => if 0 ≤ n ∧ n < (bound : Int) then some n.toNat else none
  | TomlValue.str _ => none

/-- Modelled from the spec: `crate::utill::parse_field` composed with the
caller's `.unwrap_or(default)` (the shape of all ten call sites in
`TakerConfig::new`), i.e. the Field Resolver contract of §4.1: absent key or
unconvertible value yields the default, a convertible value yields the
converted value.  Pure, no error surfaced. -/
def parse_field (bound : Nat) (raw : Option TomlValue) (d : Nat) : Nat :=
  match raw with
  | none => d
  | some v => (convertVal bound v).getD d

/-- Extraction of the `taker_config` subsection
(`section.get("taker_config").cloned().unwrap_or_default()`): an absent
section is treated as the empty section. -/
def sectionOf (doc : TomlDoc) : TomlSection :=
  (lookupKV doc "taker_config").getD []

/-- Field-by-field assembly from the extracted section: the body of the
`Ok(Self { ... })` expression of `TakerConfig::new`, lines 77-128.  Each
field resolves its own key against its own default. -/
def assembleFromSection (s : TomlSection) : TakerConfig where
  refund_locktime :=
    parse_field u16Bound (lookupKV s "refund_locktime")
      TakerConfig.default.refund_locktime
  refund_locktime_step :=
    parse_field u16Bound (lookupKV s "refund_locktime_step")
      TakerConfig.default.refund_locktime_step
  first_connect_attempts :=
    parse_field u32Bound (lookupKV s "first_connect_attempts")
      TakerConfig.default.first_connect_attempts
  first_connect_sleep_delay_sec :=
    parse_field u64Bound (lookupKV s "first_connect_sleep_delay_sec")
      TakerConfig.default.first_connect_sleep_delay_sec
  first_connect_attempt_timeout_sec :=
    parse_field u64Bound (lookupKV s "first_connect_attempt_timeout_sec")
      TakerConfig.default.first_connect_attempt_timeout_sec
  reconnect_attempts :=
    parse_field u32Bound (lookupKV s "reconnect_attempts")
      TakerConfig.default.reconnect_attempts
  reconnect_short_sleep_delay :=
    parse_field u64Bound (lookupKV s "reconnect_short_sleep_delay")
      TakerConfig.default.reconnect_short_sleep_delay
  reconnect_long_sleep_delay :=
    parse_field u64Bound (lookupKV s "reconnect_long_sleep_delay")
      TakerConfig.default.reconnect_long_sleep_delay
  short_long_sleep_delay_transition :=
    parse_field u32Bound (lookupKV s "short_long_sleep_delay_transition")
      TakerConfig.default.short_long_sleep_delay_transition
  reconnect_attempt_timeout_sec :=
    parse_field u64Bound (lookupKV s "reconnect_attempt_timeout_sec")
      TakerConfig.default.reconnect_attempt_timeout_sec

/-- Assembly from a whole parsed document: extract `taker_config` (line 75)
and assemble field by field (lines 77-128). -/
def assembleConfig (doc : TomlDoc) : TakerConfig :=
  assembleFromSection (sectionOf doc)

/-- The parsed form of the literal default file written by
`create_default_taker_dirs`: the `taker_config` section with all ten keys at
their documented default values (the `config_string` literal of lines
133-147, parsed; serialization and reparsing of that literal is modelled
from the spec's example default file content, §6). -/
def defaultTomlDoc : TomlDoc :=
  [("taker_config",
    [("refund_locktime", TomlValue.int 48),
     ("refund_locktime_step", TomlValue.int 48),
     ("first_connect_attempts", TomlValue.int 5),
     ("first_connect_sleep_delay_sec", TomlValue.int 1),
     ("first_connect_attempt_timeout_sec", TomlValue.int 20),
     ("reconnect_attempts", TomlValue.int 3200),
     ("reconnect_short_sleep_delay", TomlValue.int 10),
     ("reconnect_long_sleep_delay", TomlValue.int 60),
     ("short_long_sleep_delay_transition", TomlValue.int 60),
     ("reconnect_attempt_timeout_sec", TomlValue.int 300)])]

/-- The content of a file on disk: a well-formed structured document, or raw
text that does not parse as one. -/
inductive FileContent where
  | toml (d : TomlDoc)
  | malformed
deriving DecidableEq

/-- The state of a path that exists on disk: readable with some content, or
unreadable at the filesystem level (permissions, disk I/O). -/
inductive FileState where
  | readable (c : FileContent)
  | unreadable
deriving DecidableEq

/-- A filesystem world: the files on disk (association from path to state; a
path not in the list does not exist), the platform configuration directory
returned by `get_config_dir`, and the set of paths where a write would fail
at the filesystem level. -/
structure World where
  fs : List (String × FileState)
  configDir : String
  writeFails : List String
deriving DecidableEq

/-- `path.exists()`. -/
def World.pathExists (w : World) (p : String) : Bool :=
  (lookupKV w.fs p).isSome

/-- Whether a write to path `p` would succeed at the filesystem level. -/
def World.writeOk (w : World) (p : String) : Bool :=
  !(w.writeFails.contains p)

/-- Modelled from the spec: `crate::utill::parse_toml`, the generic
structured-text parser consumed as a capability (§6 collaborator (a)).  It
fails with a typed I/O-class error when the file does not exist, cannot be
read at the filesystem level, or does not parse as a structured document;
otherwise it returns the parsed document. -/
def parse_toml (w : World) (p : String) : Except Unit TomlDoc :=
  match lookupKV w.fs p with
  | some (FileState.readable (FileContent.toml d)) => Except.ok d
  | some (FileState.readable FileContent.malformed) => Except.error ()
  | some FileState.unreadable => Except.error ()
  | none => Except.error ()

/-- `create_default_taker_dirs` (lines 132-149): writes the canonical default
configuration file at the target path.  The write capability
(`crate::utill::write_default_config`, modelled from the spec: creates parent
directories as needed and writes literal text, fallible at the filesystem
level) has its result unwrapped by the source, so a failed write panics
(`none`) instead of returning an error.  A successful write installs the
default file; the association list is updated by prepending, since lookup
takes the first binding. -/
def create_default_taker_dirs (w : World) (p : String) : Option World :=
  if w.writeOk p then
    some { w with
      fs := (p, FileState.readable (FileContent.toml defaultTomlDoc)) :: w.fs }
  else none

/-- Outcome of a call to `TakerConfig::new`: a configuration, a typed
I/O-class error (`Err(io::Error)`), or a panic (the `unwrap()` inside
`create_default_taker_dirs`). -/
inductive LoadResult where
  | ok (c : TakerConfig)
  | ioError
  | panic
deriving DecidableEq

/-- Lifts the result of the parse step to a load outcome: a parsed document
is assembled (lines 75-128), a parse failure is propagated by `?`. -/
def assembleResult : Except Unit TomlDoc → LoadResult
  | Except.ok d => LoadResult.ok (assembleConfig d)
  | Except.error _ => LoadResult.ioError

/-- `TakerConfig::new` (lines 44-130), with the filesystem world passed
explicitly.  Returns the outcome together with the (possibly bootstrapped)
world.  Mirrors the source: an explicit path is used as given (parse if it
exists, otherwise bootstrap then parse); with no explicit path, `taker.toml`
in the working directory is parsed when it exists, otherwise the platform
config directory joined with `taker.toml` is bootstrapped when absent and
then parsed. -/
def TakerConfig.new (w : World) (filePath : Option String) : LoadResult × World :=
  match filePath with
  | some path =>
    if w.pathExists path then
      (assembleResult (parse_toml w path), w)
    else
      match create_default_taker_dirs w path with
      | none => (LoadResult.panic, w)
      | some w' => (assembleResult (parse_toml w' path), w')
  | none =>
    if w.pathExists "taker.toml" then
      (assembleResult (parse_toml w "taker.toml"), w)
    else
      if w.pathExists (w.configDir ++ "/taker.toml") then
        (assembleResult (parse_toml w (w.configDir ++ "/taker.toml")), w)
      else
        match create_default_taker_dirs w (w.configDir ++ "/taker.toml") with
        | none => (LoadResult.panic, w)
        | some w' =>
          (assembleResult (parse_toml w' (w.configDir ++ "/taker.toml")), w')

/-- The path resolution policy as specified (§4.2), tried in order with
short-circuit: the explicit path when given; else the fixed filename
`taker.toml` in the working directory when that file exists; else the
platform configuration directory joined with `taker.toml`. -/
def resolvedPath (w : World) (fp : Option String) : String :=
  match fp with
  | some p => p
  | none =>
    if w.pathExists "taker.toml" then "taker.toml"
    else w.configDir ++ "/taker.toml"

/-- The per-path loading policy as specified (§4.2 bootstrap policy): once a
target path is chosen, parse it if it exists, otherwise write the default
file there (a failed write panics, per `create_default_taker_dirs`) and
parse the result. -/
def loadAtPath (w : World) (p : String) : LoadResult × World :=
  if w.pathExists p then (assembleResult (parse_toml w p), w)
  else
    match create_default_taker_dirs w p with
    | none => (LoadResult.panic, w)
    | some w' => (assembleResult (parse_toml w' p), w')

theorem new_eq_loadAt (w : World) (fp : Option String) :
    TakerConfig.new w fp = loadAtPath w (resolvedPath w fp) := by
  cases fp with
  | some p => rfl
  | none =>
    unfold TakerConfig.new resolvedPath loadAtPath
    cases h : w.pathExists "taker.toml" <;> simp [h]

theorem parse_toml_after_create (w w' : World) (p : String)
    (h : create_default_taker_dirs w p = some w') :
    parse_toml w' p = Except.ok defaultTomlDoc := by
  unfold create_default_taker_dirs at h
  split at h
  · injection h with h
    subst h
    unfold parse_toml
    simp [lookupKV]
  · exact Option.noConfusion h

/-- Claim C3: path resolution tries, in order and short-circuiting on the
first success, the explicit path when one is given; otherwise `taker.toml`
in the current working directory when that file exists; otherwise the
platform configuration directory joined with `taker.toml` — and the loader's
behaviour is exactly per-path loading at the path so resolved. -/
theorem new_resolves_path_in_order (w : World) (fp : Option String) :
    TakerConfig.new w fp = loadAtPath w (resolvedPath w fp) :=
  new_eq_loadAt w fp

/-- A world with an empty filesystem where writing to path `"a"` fails at the
filesystem level. -/
def worldWriteFail : World where
  fs := []
  configDir := "cfg"
  writeFails := ["a"]

/-- Claim C1, counterexample: at the concrete world `worldWriteFail` with
explicit path `"a"`, the path does not exist, bootstrap is attempted, the
write fails at the filesystem level — and the failure is NOT returned to the
caller as an I/O failure: `TakerConfig::new` panics (the source unwraps the
write result inside `create_default_taker_dirs`). -/
theorem bootstrap_write_failure_panics_cex :
    worldWriteFail.pathExists "a" = false ∧
    worldWriteFail.writeOk "a" = false ∧
    (TakerConfig.new worldWriteFail (some "a")).1 = LoadResult.panic ∧
    (TakerConfig.new worldWriteFail (some "a")).1 ≠ LoadResult.ioError := by
  decide

/-- Claim C1 (amended): `TakerConfig::new` panics exactly when the resolved
path does not exist and the bootstrap write fails at the filesystem level
(the failure is not returned as an error), and it returns a typed I/O-class
error exactly when the resolved path already exists but cannot be read or
parsed as a structured document — never due to malformed or missing field
content, which the field resolver absorbs. -/
theorem new_failure_classification (w : World) (fp : Option String) :
    ((TakerConfig.new w fp).1 = LoadResult.panic ↔
      w.pathExists (resolvedPath w fp) = false ∧
      w.writeOk (resolvedPath w fp) = false) ∧
    ((TakerConfig.new w fp).1 = LoadResult.ioError ↔
      w.pathExists (resolvedPath w fp) = true ∧
      parse_toml w (resolvedPath w fp) = Except.error ()) := by
  rw [new_eq_loadAt]
  unfold loadAtPath
  cases h : w.pathExists (resolvedPath w fp) with
  | true =>
    cases hp : parse_toml w (resolvedPath w fp) <;>
      simp [h, hp, assembleResult]
  | false =>
    cases hw : w.writeOk (resolvedPath w fp) with
    | false =>
      unfold create_default_taker_dirs
      simp [h, hw]
    | true =>
      cases hc : create_default_taker_dirs w (resolvedPath w fp) with
      | none =>
        unfold create_default_taker_dirs at hc
        rw [if_pos hw] at hc
        exact Option.noConfusion hc
      | some w' =>
        simp [h, parse_toml_after_create w w' (resolvedPath w fp) hc,
          assembleResult]

theorem assembleConfig_defaultTomlDoc :
    assembleConfig defaultTomlDoc = TakerConfig.default := by decide

/-- Claim C4: when the resolved path does not exist (and the filesystem
accepts the write), the loader bootstraps: it writes the canonical default
file — the `taker_config` section with all ten keys at their documented
default values — at the resolved path before parsing, does not fail, and
the returned configuration equals the built-in default. -/
theorem bootstrap_writes_defaults (w : World) (fp : Option String)
    (h1 : w.pathExists (resolvedPath w fp) = false)
    (h2 : w.writeOk (resolvedPath w fp) = true) :
    (TakerConfig.new w fp).1 = LoadResult.ok TakerConfig.default ∧
    lookupKV (TakerConfig.new w fp).2.fs (resolvedPath w fp) =
      some (FileState.readable (FileContent.toml defaultTomlDoc)) ∧
    assembleConfig defaultTomlDoc = TakerConfig.default := by
  rw [new_eq_loadAt]
  unfold loadAtPath create_default_taker_dirs
  simp [h1, h2, parse_toml, lookupKV, assembleResult,
    assembleConfig_defaultTomlDoc]

/-- A world with an empty filesystem where every write succeeds. -/
def worldEmpty : World where
  fs := []
  configDir := "cfg"
  writeFails := []

theorem bootstrap_writes_defaults_witness :
    (TakerConfig.new worldEmpty (some "a")).1 = LoadResult.ok TakerConfig.default ∧
    lookupKV (TakerConfig.new worldEmpty (some "a")).2.fs
        (resolvedPath worldEmpty (some "a")) =
      some (FileState.readable (FileContent.toml defaultTomlDoc)) ∧
    assembleConfig defaultTomlDoc = TakerConfig.default :=
  bootstrap_writes_defaults worldEmpty (some "a") (by decide) (by decide)

/-- Claim C6: when the resolved path already exists on disk, the loader
performs no write at all (the filesystem world is returned unchanged, so
user edits are never overwritten with defaults), and a second load against
the now-existing path returns the same result as the first. -/
theorem existing_file_never_overwritten (w : World) (fp : Option String)
    (h : w.pathExists (resolvedPath w fp) = true) :
    (TakerConfig.new w fp).2 = w ∧
    TakerConfig.new ((TakerConfig.new w fp).2) fp = TakerConfig.new w fp := by
  have h2 : (TakerConfig.new w fp).2 = w := by
    rw [new_eq_loadAt]
    unfold loadAtPath
    simp [h]
  exact ⟨h2, by rw [h2]⟩

/-- A world holding one existing config file at path `"a"` whose
`taker_config` section overrides `refund_locktime` to 49. -/
def worldExisting : World where
  fs := [("a", FileState.readable (FileContent.toml
    [("taker_config", [("refund_locktime", TomlValue.int 49)])]))]
  configDir := "cfg"
  writeFails := []

theorem existing_file_never_overwritten_witness :
    (TakerConfig.new worldExisting (some "a")).2 = worldExisting ∧
    TakerConfig.new ((TakerConfig.new worldExisting (some "a")).2) (some "a") =
      TakerConfig.new worldExisting (some "a") :=
  existing_file_never_overwritten worldExisting (some "a") (by decide)

/-- Claim C9: if the file at the resolved path exists but its contents do
not parse as a structured (TOML) document at all, `TakerConfig::new` returns
an error rather than falling back to defaults — whole-document malformation
is fatal even though per-field malformation is not. -/
theorem malformed_document_is_fatal (w : World) (p : String)
    (h : lookupKV w.fs p = some (FileState.readable FileContent.malformed)) :
    TakerConfig.new w (some p) = (LoadResult.ioError, w) := by
  have he : w.pathExists p = true := by simp [World.pathExists, h]
  unfold TakerConfig.new
  simp [he, parse_toml, h, assembleResult]

/-- A world holding one existing file at path `"m"` that does not parse as a
structured document. -/
def worldMalformed : World where
  fs := [("m", FileState.readable FileContent.malformed)]
  configDir := "cfg"
  writeFails := []

theorem malformed_document_is_fatal_witness :
    TakerConfig.new worldMalformed (some "m") = (LoadResult.ioError, worldMalformed) :=
  malformed_document_is_fatal worldMalformed "m" (by decide)

/-- The resolution contract of a single configuration field against a parsed
section: absent key yields the default, a present but unconvertible value
yields the default with no error surfaced, a present convertible value
yields the converted value. -/
def FieldSpec (val : Nat) (key : String) (d bound : Nat) (s : TomlSection) : Prop :=
  (lookupKV s key = none → val = d) ∧
  ∀ v, lookupKV s key = some v → val = (convertVal bound v).getD d

theorem parse_field_fieldSpec (key : String) (d bound : Nat) (s : TomlSection) :
    FieldSpec (parse_field bound (lookupKV s key) d) key d bound s := by
  constructor
  · intro h
    rw [h]
    rfl
  · intro v h
    rw [h]
    rfl

/-- Claim C2: for every parsed `taker_config` section and each of the ten
configuration fields, an absent key yields the hard-coded default, a present
but unconvertible value silently yields the default, and a present
convertible value yields the converted value — hence any subset of the ten
fields present with valid values is reflected and the complement equals the
defaults. -/
theorem field_resolution_contract (s : TomlSection) :
    FieldSpec (assembleFromSection s).refund_locktime
      "refund_locktime" 48 u16Bound s ∧
    FieldSpec (assembleFromSection s).refund_locktime_step
      "refund_locktime_step" 48 u16Bound s ∧
    FieldSpec (assembleFromSection s).first_connect_attempts
      "first_connect_attempts" 5 u32Bound s ∧
    FieldSpec (assembleFromSection s).first_connect_sleep_delay_sec
      "first_connect_sleep_delay_sec" 1 u64Bound s ∧
    FieldSpec (assembleFromSection s).first_connect_attempt_timeout_sec
      "first_connect_attempt_timeout_sec" 20 u64Bound s ∧
    FieldSpec (assembleFromSection s).reconnect_attempts
      "reconnect_attempts" 3200 u32Bound s ∧
    FieldSpec (assembleFromSection s).reconnect_short_sleep_delay
      "reconnect_short_sleep_delay" 10 u64Bound s ∧
    FieldSpec (assembleFromSection s).reconnect_long_sleep_delay
      "reconnect_long_sleep_delay" 60 u64Bound s ∧
    FieldSpec (assembleFromSection s).short_long_sleep_delay_transition
      "short_long_sleep_delay_transition" 60 u32Bound s ∧
    FieldSpec (assembleFromSection s).reconnect_attempt_timeout_sec
      "reconnect_attempt_timeout_sec" 300 u64Bound s :=
  ⟨parse_field_fieldSpec "refund_locktime" 48 u16Bound s,
   parse_field_fieldSpec "refund_locktime_step" 48 u16Bound s,
   parse_field_fieldSpec "first_connect_attempts" 5 u32Bound s,
   parse_field_fieldSpec "first_connect_sleep_delay_sec" 1 u64Bound s,
   parse_field_fieldSpec "first_connect_attempt_timeout_sec" 20 u64Bound s,
   parse_field_fieldSpec "reconnect_attempts" 3200 u32Bound s,
   parse_field_fieldSpec "reconnect_short_sleep_delay" 10 u64Bound s,
   parse_field_fieldSpec "reconnect_long_sleep_delay" 60 u64Bound s,
   parse_field_fieldSpec "short_long_sleep_delay_transition" 60 u32Bound s,
   parse_field_fieldSpec "reconnect_attempt_timeout_sec" 300 u64Bound s⟩

/-- A section holding one valid override, one non-numeric value, and leaving
the other eight keys absent. -/
def sectionExample : TomlSection :=
  [("refund_locktime", TomlValue.int 49),
   ("first_connect_attempts", TomlValue.str "not_a_number")]

theorem field_resolution_contract_witness :
    (assembleFromSection sectionExample).refund_locktime = 49 ∧
    (assembleFromSection sectionExample).first_connect_attempts = 5 ∧
    (assembleFromSection sectionExample).refund_locktime_step = 48 :=
  ⟨((field_resolution_contract sectionExample).1.2
      (TomlValue.int 49) (by decide)).trans (by decide),
   ((field_resolution_contract sectionExample).2.2.1.2
      (TomlValue.str "not_a_number") (by decide)).trans (by decide),
   (field_resolution_contract sectionExample).2.1.1 (by decide)⟩

/-- Claim C5: if the parsed document has no `taker_config` section, assembly
treats it as an empty section — the load still assembles and every one of
the ten fields equals its hard-coded default. -/
theorem missing_section_yields_defaults (doc : TomlDoc)
    (h : lookupKV doc "taker_config" = none) :
    assembleConfig doc = TakerConfig.default := by
  unfold assembleConfig sectionOf
  rw [h]
  decide

theorem missing_section_yields_defaults_witness :
    assembleConfig [("other_section", ([] : TomlSection))] = TakerConfig.default :=
  missing_section_yields_defaults [("other_section", [])] (by decide)

/-- The ten field names recognized by the assembly of `TakerConfig::new`. -/
def recognizedKeys : List String :=
  ["refund_locktime", "refund_locktime_step", "first_connect_attempts",
   "first_connect_sleep_delay_sec", "first_connect_attempt_timeout_sec",
   "reconnect_attempts", "reconnect_short_sleep_delay",
   "reconnect_long_sleep_delay", "short_long_sleep_delay_transition",
   "reconnect_attempt_timeout_sec"]

theorem lookupKV_append {α : Type} (l1 l2 : List (String × α)) (k : String) :
    lookupKV (l1 ++ l2) k =
      match lookupKV l1 k with
      | some v => some v
      | none => lookupKV l2 k := by
  induction l1 with
  | nil => rfl
  | cons hd tl ih =>
    obtain ⟨k', v⟩ := hd
    by_cases h : k' = k
    · simp [lookupKV, h]
    · simp [lookupKV, h, ih]

theorem lookupKV_eq_none {α : Type} (l : List (String × α)) (k : String)
    (h : ∀ p ∈ l, p.1 ≠ k) : lookupKV l k = none := by
  induction l with
  | nil => rfl
  | cons hd tl ih =>
    obtain ⟨k', v⟩ := hd
    have hk : k' ≠ k := h (k', v) (List.mem_cons_self _ _)
    simp only [lookupKV, hk, if_false]
    exact ih (fun p hp => h p (List.mem_cons_of_mem _ hp))

theorem assembleFromSection_congr (s1 s2 : TomlSection)
    (h : ∀ k, k ∈ recognizedKeys → lookupKV s1 k = lookupKV s2 k) :
    assembleFromSection s1 = assembleFromSection s2 := by
  unfold assembleFromSection
  rw [h "refund_locktime" (by decide),
    h "refund_locktime_step" (by decide),
    h "first_connect_attempts" (by decide),
    h "first_connect_sleep_delay_sec" (by decide),
    h "first_connect_attempt_timeout_sec" (by decide),
    h "reconnect_attempts" (by decide),
    h "reconnect_short_sleep_delay" (by decide),
    h "reconnect_long_sleep_delay" (by decide),
    h "short_long_sleep_delay_transition" (by decide),
    h "reconnect_attempt_timeout_sec" (by decide)]

/-- Claim C7: unrecognized keys are ignored — adding to the `taker_config`
section any key-value pairs whose keys are not among the ten recognized
field names (whether appended after or inserted before the existing
bindings) leaves the assembled configuration unchanged. -/
theorem unrecognized_keys_ignored (s extra : TomlSection)
    (h : ∀ p ∈ extra, p.1 ∉ recognizedKeys) :
    assembleFromSection (s ++ extra) = assembleFromSection s ∧
    assembleFromSection (extra ++ s) = assembleFromSection s := by
  have hnone : ∀ k, k ∈ recognizedKeys → lookupKV extra k = none := by
    intro k hk
    exact lookupKV_eq_none extra k
      (fun p hp hpk => h p hp (by rw [hpk]; exact hk))
  constructor
  · apply assembleFromSection_congr
    intro k hk
    rw [lookupKV_append]
    cases hl : lookupKV s k <;> simp [hl, hnone k hk]
  · apply assembleFromSection_congr
    intro k hk
    rw [lookupKV_append, hnone k hk]

theorem unrecognized_keys_ignored_witness :
    assembleFromSection
        ([("refund_locktime", TomlValue.int 49)] ++
          [("unknown_key", TomlValue.int 7)]) =
      assembleFromSection [("refund_locktime", TomlValue.int 49)] ∧
    assembleFromSection
        ([("unknown_key", TomlValue.int 7)] ++
          [("refund_locktime", TomlValue.int 49)]) =
      assembleFromSection [("refund_locktime", TomlValue.int 49)] :=
  unrecognized_keys_ignored [("refund_locktime", TomlValue.int 49)]
    [("unknown_key", TomlValue.int 7)] (by decide)

/-- The world as it stands when the parse step runs: the input world when
the resolved path exists, otherwise the world after the bootstrap write
(unchanged when the write fails, since the call panics before parsing). -/
def afterBootstrap (w : World) (fp : Option String) : World :=
  if w.pathExists (resolvedPath w fp) then w
  else
    match create_default_taker_dirs w (resolvedPath w fp) with
    | none => w
    | some w' => w'

/-- The parsed document a given invocation observes, when the parse step
succeeds. -/
def observedDoc (w : World) (fp : Option String) : Option TomlDoc :=
  (parse_toml (afterBootstrap w fp) (resolvedPath w fp)).toOption

theorem parse_toml_absent (w : World) (p : String)
    (h : w.pathExists p = false) : parse_toml w p = Except.error () := by
  unfold World.pathExists at h
  unfold parse_toml
  cases hl : lookupKV w.fs p with
  | none => rfl
  | some st => rw [hl] at h; simp at h

theorem observed_some_new_ok (w : World) (fp : Option String) (d : TomlDoc)
    (h : observedDoc w fp = some d) :
    (TakerConfig.new w fp).1 = LoadResult.ok (assembleConfig d) := by
  rw [new_eq_loadAt]
  unfold observedDoc afterBootstrap at h
  unfold loadAtPath
  cases he : w.pathExists (resolvedPath w fp) with
  | true =>
    rw [he] at h
    simp only [if_true] at h ⊢
    cases hp : parse_toml w (resolvedPath w fp) with
    | ok d' =>
      rw [hp] at h
      simp only [Except.toOption, Option.some.injEq] at h
      subst h
      simp [assembleResult, hp]
    | error e => rw [hp] at h; exact Option.noConfusion h
  | false =>
    rw [he] at h
    simp only [Bool.false_eq_true, if_false] at h ⊢
    cases hc : create_default_taker_dirs w (resolvedPath w fp) with
    | none =>
      rw [hc] at h
      dsimp only at h
      rw [parse_toml_absent w (resolvedPath w fp) he] at h
      exact Option.noConfusion h
    | some w' =>
      rw [hc] at h
      dsimp only at h ⊢
      rw [parse_toml_after_create w w' (resolvedPath w fp) hc] at h
      simp only [Except.toOption, Option.some.injEq] at h
      subst h
      simp [assembleResult, parse_toml_after_create w w' (resolvedPath w fp) hc]

theorem new_ok_observed (w : World) (fp : Option String) (c : TakerConfig)
    (h : (TakerConfig.new w fp).1 = LoadResult.ok c) :
    ∃ d, observedDoc w fp = some d ∧ c = assembleConfig d := by
  rw [new_eq_loadAt] at h
  unfold loadAtPath at h
  unfold observedDoc afterBootstrap
  cases he : w.pathExists (resolvedPath w fp) with
  | true =>
    rw [he] at h
    simp only [if_true] at h ⊢
    cases hp : parse_toml w (resolvedPath w fp) with
    | ok d =>
      rw [hp] at h
      simp only [assembleResult, LoadResult.ok.injEq] at h
      exact ⟨d, by simp [hp, Except.toOption], h.symm⟩
    | error e =>
      rw [hp] at h
      exact absurd h (by simp [assembleResult])
  | false =>
    rw [he] at h
    simp only [Bool.false_eq_true, if_false] at h ⊢
    cases hc : create_default_taker_dirs w (resolvedPath w fp) with
    | none =>
      rw [hc] at h
      exact absurd h (by simp)
    | some w' =>
      rw [hc] at h
      dsimp only at h ⊢
      rw [parse_toml_after_create w w' (resolvedPath w fp) hc] at h ⊢
      simp only [assembleResult, LoadResult.ok.injEq] at h
      exact ⟨defaultTomlDoc, by simp [Except.toOption], h.symm⟩

/-- A single field of an assembled configuration is populated: it equals its
hard-coded default, or it is the successfully converted value of a key
present in the section. -/
def FieldPopulated (val : Nat) (key : String) (d bound : Nat)
    (s : TomlSection) : Prop :=
  val = d ∨ ∃ v, lookupKV s key = some v ∧ convertVal bound v = some val

theorem parse_field_populated (key : String) (d bound : Nat)
    (s : TomlSection) :
    FieldPopulated (parse_field bound (lookupKV s key) d) key d bound s := by
  unfold FieldPopulated
  cases h : lookupKV s key with
  | none => exact Or.inl rfl
  | some v =>
    cases hc : convertVal bound v with
    | none => exact Or.inl (by simp [parse_field, hc])
    | some n => exact Or.inr ⟨v, rfl, by simp [parse_field, hc]⟩

/-- Claim C8: every successful call to `TakerConfig::new` returns a
configuration with all ten fields populated — each field is either the
hard-coded default or the successfully converted value of a key present in
the observed `taker_config` section; absent or unparsable fields fall back
to the default rather than aborting resolution. -/
theorem successful_load_fully_populated (w : World) (fp : Option String)
    (c : TakerConfig) (h : (TakerConfig.new w fp).1 = LoadResult.ok c) :
    ∃ d, observedDoc w fp = some d ∧
      (FieldPopulated c.refund_locktime
        "refund_locktime" 48 u16Bound (sectionOf d) ∧
       FieldPopulated c.refund_locktime_step
        "refund_locktime_step" 48 u16Bound (sectionOf d) ∧
       FieldPopulated c.first_connect_attempts
        "first_connect_attempts" 5 u32Bound (sectionOf d) ∧
       FieldPopulated c.first_connect_sleep_delay_sec
        "first_connect_sleep_delay_sec" 1 u64Bound (sectionOf d) ∧
       FieldPopulated c.first_connect_attempt_timeout_sec
        "first_connect_attempt_timeout_sec" 20 u64Bound (sectionOf d) ∧
       FieldPopulated c.reconnect_attempts
        "reconnect_attempts" 3200 u32Bound (sectionOf d) ∧
       FieldPopulated c.reconnect_short_sleep_delay
        "reconnect_short_sleep_delay" 10 u64Bound (sectionOf d) ∧
       FieldPopulated c.reconnect_long_sleep_delay
        "reconnect_long_sleep_delay" 60 u64Bound (sectionOf d) ∧
       FieldPopulated c.short_long_sleep_delay_transition
        "short_long_sleep_delay_transition" 60 u32Bound (sectionOf d) ∧
       FieldPopulated c.reconnect_attempt_timeout_sec
        "reconnect_attempt_timeout_sec" 300 u64Bound (sectionOf d)) := by
  obtain ⟨d, hd, hc⟩ := new_ok_observed w fp c h
  subst hc
  exact ⟨d, hd,
    parse_field_populated "refund_locktime" 48 u16Bound (sectionOf d),
    parse_field_populated "refund_locktime_step" 48 u16Bound (sectionOf d),
    parse_field_populated "first_connect_attempts" 5 u32Bound (sectionOf d),
    parse_field_populated "first_connect_sleep_delay_sec" 1 u64Bound
      (sectionOf d),
    parse_field_populated "first_connect_attempt_timeout_sec" 20 u64Bound
      (sectionOf d),
    parse_field_populated "reconnect_attempts" 3200 u32Bound (sectionOf d),
    parse_field_populated "reconnect_short_sleep_delay" 10 u64Bound
      (sectionOf d),
    parse_field_populated "reconnect_long_sleep_delay" 60 u64Bound
      (sectionOf d),
    parse_field_populated "short_long_sleep_delay_transition" 60 u32Bound
      (sectionOf d),
    parse_field_populated "reconnect_attempt_timeout_sec" 300 u64Bound
      (sectionOf d)⟩

/-- The built-in default with `refund_locktime` overridden to 49: the
configuration assembled from the file held in `worldExisting`. -/
def configOverride49 : TakerConfig :=
  { TakerConfig.default with refund_locktime := 49 }

theorem successful_load_fully_populated_witness :
    ∃ d, observedDoc worldExisting (some "a") = some d ∧
      (FieldPopulated configOverride49.refund_locktime
        "refund_locktime" 48 u16Bound (sectionOf d) ∧
       FieldPopulated configOverride49.refund_locktime_step
        "refund_locktime_step" 48 u16Bound (sectionOf d) ∧
       FieldPopulated configOverride49.first_connect_attempts
        "first_connect_attempts" 5 u32Bound (sectionOf d) ∧
       FieldPopulated configOverride49.first_connect_sleep_delay_sec
        "first_connect_sleep_delay_sec" 1 u64Bound (sectionOf d) ∧
       FieldPopulated configOverride49.first_connect_attempt_timeout_sec
        "first_connect_attempt_timeout_sec" 20 u64Bound (sectionOf d) ∧
       FieldPopulated configOverride49.reconnect_attempts
        "reconnect_attempts" 3200 u32Bound (sectionOf d) ∧
       FieldPopulated configOverride49.reconnect_short_sleep_delay
        "reconnect_short_sleep_delay" 10 u64Bound (sectionOf d) ∧
       FieldPopulated configOverride49.reconnect_long_sleep_delay
        "reconnect_long_sleep_delay" 60 u64Bound (sectionOf d) ∧
       FieldPopulated configOverride49.short_long_sleep_delay_transition
        "short_long_sleep_delay_transition" 60 u32Bound (sectionOf d) ∧
       FieldPopulated configOverride49.reconnect_attempt_timeout_sec
        "reconnect_attempt_timeout_sec" 300 u64Bound (sectionOf d)) :=
  successful_load_fully_populated worldExisting (some "a") configOverride49
    (by decide)

/-- Claim C10: assembly is deterministic in the parsed document — any two
invocations of `TakerConfig::new` that observe parsed documents with the
same `taker_config` section content return equal results, independent of
which path was resolved or any other ambient state. -/
theorem assembly_deterministic (w1 w2 : World) (fp1 fp2 : Option String)
    (d1 d2 : TomlDoc)
    (h1 : observedDoc w1 fp1 = some d1) (h2 : observedDoc w2 fp2 = some d2)
    (hs : sectionOf d1 = sectionOf d2) :
    (TakerConfig.new w1 fp1).1 = (TakerConfig.new w2 fp2).1 := by
  rw [observed_some_new_ok w1 fp1 d1 h1, observed_some_new_ok w2 fp2 d2 h2]
  unfold assembleConfig
  rw [hs]

/-- A world differing from `worldExisting` in path, platform configuration
directory and surrounding document content, but whose `taker_config`
section content is the same. -/
def worldExistingAlt : World where
  fs := [("b", FileState.readable (FileContent.toml
    [("other_section", []),
     ("taker_config", [("refund_locktime", TomlValue.int 49)])]))]
  configDir := "another_dir"
  writeFails := []

theorem assembly_deterministic_witness :
    (TakerConfig.new worldExisting (some "a")).1 =
      (TakerConfig.new worldExistingAlt (some "b")).1 :=
  assembly_deterministic worldExisting worldExistingAlt (some "a") (some "b")
    [("taker_config", [("refund_locktime", TomlValue.int 49)])]
    [("other_section", []),
     ("taker_config", [("refund_locktime", TomlValue.int 49)])]
    (by decide) (by decide) (by decide)
